import Mathlib

/-!
Verification of the Telegram file-storage bot (src/db/database.py,
src/handlers/user_handlers.py, src/keyboards.py, src/db/middleware.py,
src/main.py) against its natural-language specification.

The relational store is embedded as explicit record state (`DB`), the
per-user aiogram FSM session as `SessionState`, the filesystem blob store
as a list of paths, and each aiogram handler as a pure function from world
state to world state plus emitted output.  The dispatcher (`dispatchMsg`,
`dispatchCb`) mirrors the registration order of the handlers in
user_handlers.py, including the order-sensitive interaction between the
catch-all `StateFilter` handlers and the `/cancel` command handler.
-/

namespace TgBot

/-- File kind stored in the `storage.file_type` column
(CHECK file_type IN ('photo', 'document')). -/
inductive FileType
  | photo
  | document
deriving DecidableEq, Repr

/-- A row of the `users` table (database.py, create_tables). -/
structure UserRec where
  user_id : Nat
  username : Option String
  registered_at : Nat
  is_authorized : Bool
deriving DecidableEq, Repr

/-- A row of the `auth_keys` table (database.py, create_tables). -/
structure KeyRec where
  auth_key : String
  is_used : Bool
deriving DecidableEq, Repr

/-- A row of the `storage` table (database.py, create_tables). -/
structure FileRec where
  id : Nat
  user_id : Nat
  file_path : String
  original_filename : String
  file_type : FileType
  uploaded_at : Nat
deriving DecidableEq, Repr

/-- The relational store.  `next_file_id` models the SERIAL id sequence of
`storage`; `now` models the database clock NOW(), bumped on every
timestamping insert so that later inserts get strictly larger timestamps.
The write-only `logs` audit table is not modelled: no claim reads it back,
and handler audit writes are emitted as output events instead. -/
structure DB where
  users : List UserRec
  auth_keys : List KeyRec
  storage : List FileRec
  next_file_id : Nat
  now : Nat
deriving DecidableEq, Repr

/-- database.py `get_user`: SELECT ... FROM users WHERE user_id = $1
(user_id is UNIQUE, so the first match is the row). -/
def get_user (db : DB) (uid : Nat) : Option UserRec :=
  db.users.find? (fun u => u.user_id == uid)

/-- database.py `add_user`: INSERT INTO users VALUES ($1,$2,NOW(),FALSE). -/
def add_user (db : DB) (uid : Nat) (uname : Option String) : DB × UserRec :=
  let u : UserRec := ⟨uid, uname, db.now, false⟩
  ({ db with users := db.users ++ [u], now := db.now + 1 }, u)

/-- database.py `check_auth_key`: SELECT id, is_used FROM auth_keys WHERE
auth_key = $1 FOR UPDATE (auth_key is UNIQUE). -/
def check_auth_key (db : DB) (key : String) : Option KeyRec :=
  db.auth_keys.find? (fun k => k.auth_key == key)

/-- database.py `mark_key_used`: UPDATE auth_keys SET is_used = TRUE WHERE
auth_key = $1. -/
def mark_key_used (db : DB) (key : String) : DB :=
  { db with auth_keys := db.auth_keys.map fun k =>
      if k.auth_key == key then { k with is_used := true } else k }

/-- database.py `set_user_authorized_in_transaction`: UPDATE users SET
is_authorized = TRUE WHERE user_id = $1. -/
def set_user_authorized_in_transaction (db : DB) (uid : Nat) : DB :=
  { db with users := db.users.map fun u =>
      if u.user_id == uid then { u with is_authorized := true } else u }

/-- database.py `set_user_authorization_status`: UPDATE users SET
is_authorized = $1 WHERE user_id = $2. -/
def set_user_authorization_status (db : DB) (uid : Nat) (b : Bool) : DB :=
  { db with users := db.users.map fun u =>
      if u.user_id == uid then { u with is_authorized := b } else u }

/-- Reply message of authorize_user_with_key for an unknown key. -/
def invalidKeyMsg : String := "Недійсний ключ авторизації."

/-- Reply message of authorize_user_with_key for an already used key. -/
def usedKeyMsg : String := "Цей ключ авторизації вже було використано."

/-- Reply message of authorize_user_with_key on success. -/
def authOkMsg : String := "Авторизація успішна."

/-- database.py `authorize_user_with_key`: one transaction that looks up
the key under FOR UPDATE, fails on missing or used keys without writes,
and otherwise marks the key used and sets the user authorized before
committing.  The returned `DB` is the post-transaction store: unchanged on
failure, with both updates applied on success. -/
def authorize_user_with_key (db : DB) (uid : Nat) (key : String) :
    DB × Bool × String :=
  match check_auth_key db key with
  | none => (db, false, invalidKeyMsg)
  | some k =>
    if k.is_used then (db, false, usedKeyMsg)
    else (set_user_authorized_in_transaction (mark_key_used db key) uid,
          true, authOkMsg)

/-- Whether a user row with this id exists. -/
def userExists (db : DB) (uid : Nat) : Bool :=
  (get_user db uid).isSome

/-- Logger line emitted by add_file_record when the INSERT hits an
integrity constraint violation (the owning user no longer exists). -/
def addFileIntegrityLog : String :=
  "Failed to add file record: user might not exist (integrity violation)."

/-- Logger line emitted by add_file_record on an unexpected error. -/
def addFileUnexpectedLog : String := "Unexpected error adding file record."

/-- Logger line emitted by add_file_record on success. -/
def addFileOkLog : String := "Added file record."

/-- Result of add_file_record: the store afterwards, the logger lines it
emitted, and whether it re-raised an exception to the caller. -/
structure AddFileResult where
  db : DB
  logLines : List String
  raised : Bool
deriving DecidableEq, Repr

/-- database.py `add_file_record`: INSERT INTO storage.  A foreign-key
violation (user row absent) is caught, logged and swallowed — the function
returns normally without a row.  Any other failure (modelled by the
`otherFail` fault flag) is logged and re-raised. -/
def add_file_record (db : DB) (uid : Nat) (fp fn : String) (ft : FileType)
    (otherFail : Bool) : AddFileResult :=
  if userExists db uid then
    if otherFail then ⟨db, [addFileUnexpectedLog], true⟩
    else
      ⟨{ db with
          storage := ⟨db.next_file_id, uid, fp, fn, ft, db.now⟩ :: db.storage,
          next_file_id := db.next_file_id + 1,
          now := db.now + 1 },
        [addFileOkLog], false⟩
  else ⟨db, [addFileIntegrityLog], false⟩

/-- database.py `get_file_record`: SELECT ... FROM storage WHERE id = $1. -/
def get_file_record (db : DB) (fid : Nat) : Option FileRec :=
  db.storage.find? (fun r => r.id == fid)

/-- database.py `delete_file_record`: fetch the row by id (no ownership
filter), then DELETE FROM storage WHERE id = $1, returning the file path
of the deleted row, or none when the row was absent. -/
def delete_file_record (db : DB) (fid : Nat) : DB × Option String :=
  match get_file_record db fid with
  | none => (db, none)
  | some r =>
    ({ db with storage := db.storage.filter (fun s => s.id != fid) },
     some r.file_path)

/-- A row of the SELECT ... JOIN users ... in get_user_files. -/
structure JoinedFile where
  id : Nat
  user_id : Nat
  file_path : String
  original_filename : String
  file_type : FileType
  uploaded_at : Nat
  username : Option String
deriving DecidableEq, Repr

/-- ORDER BY uploaded_at DESC as a relation: `a` before `b` when `b` is
not newer. -/
def newestFirst (a b : JoinedFile) : Prop :=
  b.uploaded_at ≤ a.uploaded_at

instance : DecidableRel newestFirst := fun a b =>
  Nat.decLe b.uploaded_at a.uploaded_at

instance : IsTotal JoinedFile newestFirst :=
  ⟨fun a b => Nat.le_total b.uploaded_at a.uploaded_at⟩

instance : IsTrans JoinedFile newestFirst :=
  ⟨fun _ _ _ h1 h2 => Nat.le_trans h2 h1⟩

/-- The FROM storage s JOIN users u ON s.user_id = u.user_id WHERE
s.user_id = $1 part of get_user_files: the user's storage rows, each
joined with the owner's username; rows whose owner is missing are dropped
by the inner join. -/
def joinedRows (db : DB) (uid : Nat) : List JoinedFile :=
  (db.storage.filter (fun s => s.user_id == uid)).filterMap fun s =>
    (get_user db s.user_id).map fun u =>
      ⟨s.id, s.user_id, s.file_path, s.original_filename, s.file_type,
       s.uploaded_at, u.username⟩

/-- database.py `get_user_files`: the join, ordered by uploaded_at DESC. -/
def get_user_files (db : DB) (uid : Nat) : List JoinedFile :=
  (joinedRows db uid).insertionSort newestFirst

/-! ### Python `pathlib` filename suffix

user_handlers.py computes `Path(original_filename).suffix.lower()`.
`PurePosixPath` drops empty and `"."` path components, takes the final
component as the name, and the suffix is the name from its last dot,
provided that dot is neither the first nor the last character. -/

/-- Split a character list on a separator character. -/
def splitOnChar (sep : Char) : List Char → List (List Char)
  | [] => [[]]
  | c :: rest =>
    match splitOnChar sep rest with
    | [] => [[]]
    | g :: gs => if c == sep then [] :: g :: gs else (c :: g) :: gs

/-- Python str.lower on the basic latin range (the only characters the
extension allow-list can match). -/
def lowerStr (s : String) : String :=
  String.mk (s.toList.map Char.toLower)

/-- The path components pathlib keeps: split on `/`, drop empty and `"."`
parts. -/
def pathParts (s : String) : List String :=
  ((splitOnChar '/' s.toList).map String.mk).filter (fun p => !(p == "" || p == "."))

/-- `PurePosixPath(s).name`: the last kept component, `""` when none. -/
def pathName (s : String) : String :=
  (pathParts s).getLastD ""

/-- Index of the last `'.'` in a character list, if any. -/
def rfindDotIdx : List Char → Option Nat
  | [] => none
  | c :: cs =>
    match rfindDotIdx cs with
    | some i => some (i + 1)
    | none => if c == '.' then some 0 else none

/-- `PurePosixPath(s).suffix`: the extension of the final component,
from its last dot, empty when the last dot is leading or trailing. -/
def pySuffix (s : String) : String :=
  let cs := (pathName s).toList
  match rfindDotIdx cs with
  | none => ""
  | some i => if 0 < i ∧ i + 1 < cs.length then String.mk (cs.drop i) else ""

/-! ### Handler layer: messages, menus, session state, dispatch -/

/-- A single quote character, used inside several bot messages. -/
def sq : String := (Char.ofNat 39).toString

/-- A backtick character, used inside several bot messages. -/
def bq : String := (Char.ofNat 96).toString

/-- user_handlers.py ALLOWED_DOC_EXTENSIONS (a Python set; membership is
what matters — its iteration order for display is unspecified, fixed here
to the literal order). -/
def allowedDocExtensions : List String := [".pdf", ".doc", ".docx", ".xlsx"]

/-- The `", ".join(ALLOWED_DOC_EXTENSIONS)` display string. -/
def allowedFormats : String := String.intercalate ", " allowedDocExtensions

/-- Reply of require_authorization for an unauthorized or unknown user. -/
def unauthorizedMsg : String :=
  "Ця функція доступна тільки авторизованим користувачам."

def authPrompt : String :=
  "\nБудь ласка, використайте команду " ++ bq ++ "/auth <ваш_ключ>" ++ bq ++
    " або натисніть кнопку " ++ sq ++ "Авторизація" ++ sq ++ "."

def wrongFormatMsg (ext : String) : String :=
  "Невірний формат (" ++ ext ++ "). Дозволено: " ++ allowedFormats ++
    ".\nНадішліть інший файл або /cancel."

def saveFailDocMsg : String :=
  "Не вдалося зберегти файл. Спробуйте ще раз або /cancel."

def saveFailPhotoMsg : String :=
  "Не вдалося зберегти фото. Спробуйте ще раз або /cancel."

def dbErrDocMsg : String :=
  "Файл завантажено, але сталася помилка при збереженні запису в базу. Зверніться до адміністратора."

def dbErrPhotoMsg : String :=
  "Фото завантажено, але сталася помилка при збереженні запису в базу. Зверніться до адміністратора."

def docUploadedMsg (name : String) : String :=
  "Документ " ++ sq ++ name ++ sq ++ " завантажено!"

def photoUploadedMsg : String := "Фото успішно завантажено!"

def wrongDocInputMsg : String :=
  "Очікується файл документа (" ++ allowedFormats ++
    "). Надішліть файл або скасуйте: /cancel."

def wrongPhotoInputMsg : String :=
  "Очікується фото. Надішліть фото або скасуйте: /cancel."

def chooseButtonMsg : String :=
  "Будь ласка, натисніть одну з кнопок вище (" ++ sq ++ "Документ" ++ sq ++
    " або " ++ sq ++ "Фото" ++ sq ++ ") або скасуйте: /cancel."

def cancelledMsg : String := "Дію скасовано."

def fileDeletedAnswer : String := "Файл видалено."

def deleteForbiddenAnswer : String :=
  "Помилка: Неможливо видалити файл іншого користувача."

def deleteNotFoundAnswer : String :=
  "Помилка: Файл не знайдено або вже видалено."

def unknownFileTypeMsg : String := "Невідомий тип файлу. Спробуйте ще раз."

def uploadDocPromptMsg : String :=
  "Будь ласка, завантажте документ (" ++ allowedFormats ++ "). Або /cancel"

def uploadPhotoPromptMsg : String := "Будь ласка, завантажте фото. Або /cancel"

def chooseTypeMsg : String := "Оберіть тип файлу для завантаження:"

def logoutMsg : String := "Ви успішно розлогінились."

def noFilesMsg : String := "Ви ще не завантажували файли."

def yourFilesMsg : String := "Ваші завантажені файли:"

/-- The reply keyboards of keyboards.py. -/
inductive Menu
  | authorized
  | unauthorized
  | fileTypeKb
  | deleteBtn (fid : Nat)
deriving DecidableEq, Repr

/-- One outgoing chat message with its optional keyboard. -/
structure Reply where
  text : String
  menu : Option Menu
deriving DecidableEq, Repr

/-- Observable output of one handler invocation: chat replies, callback
query answers, and process-logger lines. -/
structure Out where
  replies : List Reply
  answers : List String
  logLines : List String
deriving DecidableEq, Repr

def emptyOut : Out := ⟨[], [], []⟩

/-- The aiogram FSM states.  Modelled from the spec: the `FileUpload`
states group lives in states.py, which is not among the provided sources;
its three states are reconstructed from the StateFilter uses in
user_handlers.py and §4.2 of the spec (Idle is the absence of a state). -/
inductive SessionState
  | idle
  | choosingFileType
  | awaitingDocument
  | awaitingPhoto
deriving DecidableEq, Repr

/-- Whole observable state: relational store, blob store (paths present
on disk under temp/), and the acting user's FSM session state. -/
structure World where
  db : DB
  disk : List String
  session : SessionState
deriving DecidableEq, Repr

/-- Environment faults injected at the two fallible I/O points: the blob
download in _save_uploaded_file and an unexpected (non-FK) failure of the
storage INSERT.  `saveOk = true` means the download succeeds. -/
structure Oracle where
  saveOk : Bool
  insertFail : Bool
deriving DecidableEq, Repr

/-- The on-disk path used by _save_uploaded_file: TEMP_DIR / user_id /
desired_filename. -/
def save_path (uid : Nat) (fname : String) : String :=
  "temp/" ++ toString uid ++ "/" ++ fname

/-- user_handlers.py `_save_uploaded_file`: download the blob to the
per-user temp path; on failure return none and leave the world unchanged. -/
def save_uploaded_file (w : World) (o : Oracle) (uid : Nat) (fname : String) :
    World × Option String :=
  if o.saveOk then
    let p := save_path uid fname
    ({ w with disk := p :: w.disk }, some p)
  else (w, none)

/-- user_handlers.py `_delete_file_from_disk`: unlink the path if present. -/
def delete_file_from_disk (disk : List String) (p : String) : List String :=
  disk.filter (fun q => q != p)

/-- Python string interpolation of an optional username (None prints as
"None"). -/
def unameStr (u : Option String) : String := u.getD "None"

/-- require_authorization: is there a user row with is_authorized true? -/
def isAuthorized (db : DB) (uid : Nat) : Bool :=
  match get_user db uid with
  | some u => u.is_authorized
  | none => false

/-- Output of the require_authorization guard for a message handler:
the unauthorized text with the unauthorized menu. -/
def unauthorizedOutMsg : Out :=
  ⟨[⟨unauthorizedMsg, some Menu.unauthorized⟩], [], []⟩

/-- Output of the guard for a callback handler: the same message plus the
callback-query alert. -/
def unauthorizedOutCb : Out :=
  ⟨[⟨unauthorizedMsg, some Menu.unauthorized⟩], [unauthorizedMsg], []⟩

/-- The require_authorization decorator around a message handler body:
consult the users table now; run the body only when authorized. -/
def gatedMsg (w : World) (uid : Nat) (body : World × Out) : World × Out :=
  if isAuthorized w.db uid then body else (w, unauthorizedOutMsg)

/-- The require_authorization decorator around a callback handler body. -/
def gatedCb (w : World) (uid : Nat) (body : World × Out) : World × Out :=
  if isAuthorized w.db uid then body else (w, unauthorizedOutCb)

/-- user_handlers.py `cmd_start` (ungated). -/
def cmd_start_h (w : World) (uid : Nat) (uname : Option String) :
    World × Out :=
  match get_user w.db uid with
  | some u =>
    if u.is_authorized then
      (w, ⟨[⟨"З поверненням, " ++ u.username.getD "user" ++ "!",
            some Menu.authorized⟩], [], []⟩)
    else
      (w, ⟨[⟨"Привіт, " ++ unameStr uname ++ "!" ++
              " Ви зареєстровані, але ще не авторизовані." ++ authPrompt,
            some Menu.unauthorized⟩], [], []⟩)
  | none =>
    let r := add_user w.db uid uname
    ({ w with db := r.1 },
     ⟨[⟨"Привіт, " ++ unameStr uname ++ "!" ++ "Ви зареєстровані в системі." ++
         authPrompt, some Menu.unauthorized⟩], [], []⟩)

/-- user_handlers.py `cmd_auth` (ungated; performs its own advisory
registered / already-authorized checks before calling the redeem
transaction). -/
def cmd_auth_h (w : World) (uid : Nat) (uname : Option String)
    (args : Option String) : World × Out :=
  match get_user w.db uid with
  | none =>
    (w, ⟨[⟨"Будь ласка, спочатку зареєструйтесь за допомогою команди /start.",
          some Menu.unauthorized⟩], [], []⟩)
  | some u =>
    if u.is_authorized then
      (w, ⟨[⟨unameStr uname ++ ", ви вже авторизовані.",
            some Menu.authorized⟩], [], []⟩)
    else
      match args with
      | none =>
        (w, ⟨[⟨"Будь ласка, вкажіть ключ авторизації після команди. Приклад: "
                ++ bq ++ "/auth ваш_ключ" ++ bq, none⟩], [], []⟩)
      | some key =>
        let r := authorize_user_with_key w.db uid key
        if r.2.1 then
          ({ w with db := r.1 },
           ⟨[⟨"Вітаємо, " ++ unameStr uname ++ "! " ++ r.2.2,
              some Menu.authorized⟩], [], []⟩)
        else
          ({ w with db := r.1 },
           ⟨[⟨r.2.2, some Menu.unauthorized⟩], [], []⟩)

/-- user_handlers.py `handle_auth_button` (ungated). -/
def handle_auth_button_h (w : World) (uid : Nat) : World × Out :=
  match get_user w.db uid with
  | some u =>
    if u.is_authorized then
      (w, ⟨[⟨"Ви вже авторизовані.", some Menu.authorized⟩], [], []⟩)
    else
      (w, ⟨[⟨"Будь ласка, введіть команду " ++ bq ++ "/auth <ваш_ключ>" ++ bq ++
              " для авторизації.", none⟩], [], []⟩)
  | none =>
    (w, ⟨[⟨"Будь ласка, спочатку використайте /start для реєстрації.",
          none⟩], [], []⟩)

/-- Body of user_handlers.py `handle_logout` (inside the guard). -/
def handle_logout_body (w : World) (uid : Nat) : World × Out :=
  ({ w with db := set_user_authorization_status w.db uid false },
   ⟨[⟨logoutMsg, some Menu.unauthorized⟩], [], []⟩)

/-- Body of `handle_process_file`: forces the session to ChoosingKind. -/
def handle_process_file_body (w : World) : World × Out :=
  ({ w with session := SessionState.choosingFileType },
   ⟨[⟨chooseTypeMsg, some Menu.fileTypeKb⟩], [], []⟩)

/-- user_handlers.py `_format_file_info` (timestamps rendered via
`toString` in place of strftime). -/
def format_file_info (f : JoinedFile) : String :=
  "Файл № " ++ toString f.id ++ "**\n" ++
    "Завантажив: " ++ f.username.getD "Невідомо" ++ "\n" ++
    "Дата та час: " ++ toString f.uploaded_at ++ "\n" ++
    "Тип файлу: " ++
    (match f.file_type with
     | FileType.photo => "Фото"
     | FileType.document => "Документ") ++ "\n" ++
    "Назва файлу: " ++ bq ++ f.original_filename ++ bq

/-- Body of `handle_list_files`: a pure read of get_user_files; one reply
per file with its delete button. -/
def handle_list_files_body (w : World) (uid : Nat) : World × Out :=
  let files := get_user_files w.db uid
  if files.isEmpty then (w, ⟨[⟨noFilesMsg, none⟩], [], []⟩)
  else
    (w, ⟨⟨yourFilesMsg, none⟩ ::
          files.map (fun f => ⟨format_file_info f, some (Menu.deleteBtn f.id)⟩),
        [], []⟩)

/-- Body of `handle_file_type_choice` (callback, only dispatched in state
ChoosingKind): moves to the matching awaiting state, or clears the session
on an unknown kind. -/
def handle_file_type_choice_body (w : World) (t : String) : World × Out :=
  if t == "document" then
    ({ w with session := SessionState.awaitingDocument },
     ⟨[⟨uploadDocPromptMsg, none⟩], [""], []⟩)
  else if t == "photo" then
    ({ w with session := SessionState.awaitingPhoto },
     ⟨[⟨uploadPhotoPromptMsg, none⟩], [""], []⟩)
  else
    ({ w with session := SessionState.idle },
     ⟨[⟨unknownFileTypeMsg, none⟩], [""], []⟩)

/-- Body of `handle_delete_file` (callback): deletes the ledger row by id
FIRST, then the blob; the ownership comparison only happens in the branch
where the row was already gone. -/
def handle_delete_file_body (w : World) (uid : Nat) (fid : Nat) :
    World × Out :=
  match (delete_file_record w.db fid).2 with
  | some p =>
    ({ w with
        db := Prod.fst (delete_file_record w.db fid),
        disk := delete_file_from_disk w.disk p },
     ⟨[], [fileDeletedAnswer], []⟩)
  | none =>
    match get_file_record (delete_file_record w.db fid).1 fid with
    | some rec0 =>
      if rec0.user_id != uid then (w, ⟨[], [deleteForbiddenAnswer], []⟩)
      else (w, ⟨[], [deleteNotFoundAnswer], []⟩)
    | none => (w, ⟨[], [deleteNotFoundAnswer], []⟩)

/-- Body of `handle_document_upload`: extension allow-list check first;
then the blob download; then the ledger insert whose FK failure is
swallowed inside add_file_record.  On download failure the state is NOT
cleared (the handler returns early); after the insert attempt the state
is cleared on both the success and the raised paths. -/
def handle_document_upload_body (w : World) (o : Oracle) (uid : Nat)
    (file_name : Option String) (file_unique_id : String) : World × Out :=
  let original := file_name.getD "unknown_document"
  let ext := lowerStr (pySuffix original)
  if !(allowedDocExtensions.contains ext) then
    (w, ⟨[⟨wrongFormatMsg ext, none⟩], [], []⟩)
  else
    let sres := save_uploaded_file w o uid (file_unique_id ++ ext)
    match sres.2 with
    | none => (sres.1, ⟨[⟨saveFailDocMsg, none⟩], [], []⟩)
    | some p =>
      let r := add_file_record sres.1.db uid p original FileType.document
        o.insertFail
      if r.raised then
        ({ sres.1 with db := r.db, session := SessionState.idle },
         ⟨[⟨dbErrDocMsg, none⟩], [], r.logLines⟩)
      else
        ({ sres.1 with db := r.db, session := SessionState.idle },
         ⟨[⟨docUploadedMsg original, some Menu.authorized⟩], [], r.logLines⟩)

/-- The generated photo filename: photo_{file_unique_id}_{timestamp}.jpg. -/
def photoSaveName (fuid : String) (ts : Nat) : String :=
  "photo_" ++ fuid ++ "_" ++ toString ts ++ ".jpg"

/-- Body of `handle_photo_upload`: like the document path but with the
generated name both as the storage handle and the original_filename, and
no extension check. -/
def handle_photo_upload_body (w : World) (o : Oracle) (uid : Nat)
    (file_unique_id : String) : World × Out :=
  let saveName := photoSaveName file_unique_id w.db.now
  let sres := save_uploaded_file w o uid saveName
  match sres.2 with
  | none => (sres.1, ⟨[⟨saveFailPhotoMsg, none⟩], [], []⟩)
  | some p =>
    let r := add_file_record sres.1.db uid p saveName FileType.photo
      o.insertFail
    if r.raised then
      ({ sres.1 with db := r.db, session := SessionState.idle },
       ⟨[⟨dbErrPhotoMsg, none⟩], [], r.logLines⟩)
    else
      ({ sres.1 with db := r.db, session := SessionState.idle },
       ⟨[⟨photoUploadedMsg, some Menu.authorized⟩], [], r.logLines⟩)

/-- Body of `handle_wrong_document_input`: retry-or-cancel reply, state
kept. -/
def handle_wrong_document_input_body (w : World) : World × Out :=
  (w, ⟨[⟨wrongDocInputMsg, none⟩], [], []⟩)

/-- Body of `handle_wrong_photo_input`. -/
def handle_wrong_photo_input_body (w : World) : World × Out :=
  (w, ⟨[⟨wrongPhotoInputMsg, none⟩], [], []⟩)

/-- Body of `handle_text_instead_of_callback`. -/
def handle_text_instead_of_callback_body (w : World) : World × Out :=
  (w, ⟨[⟨chooseButtonMsg, none⟩], [], []⟩)

/-- user_handlers.py `cancel_upload_command` (ungated; registered with
StateFilter(FileUpload)).  Because the three catch-all wrong-input
handlers are registered before it and match any message in those states,
dispatch never reaches it — it is kept here to document what it would do. -/
def cancel_upload_command_h (w : World) : World × Out :=
  ({ w with session := SessionState.idle },
   ⟨[⟨cancelledMsg, some Menu.authorized⟩], [], []⟩)

/-- Inbound message events, classified the way the aiogram filters of
user_handlers.py classify them.  `documentMsg` carries the optional
original file name and the file_unique_id; `cancelCmd` is the literal
`/cancel` text command; `otherText` is any other non-command text. -/
inductive MsgEvent
  | startCmd (uname : Option String)
  | authCmd (uname : Option String) (args : Option String)
  | authButton
  | logoutButton
  | processFileButton
  | listFilesButton
  | documentMsg (file_name : Option String) (file_unique_id : String)
  | photoMsg (file_unique_id : String)
  | cancelCmd
  | otherText (s : String)
deriving DecidableEq, Repr

/-- Inbound callback-query events. -/
inductive CbEvent
  | fileTypeCb (t : String)
  | deleteFileCb (fid : Nat)
deriving DecidableEq, Repr

/-- Message dispatch, mirroring the registration order of the message
handlers in user_handlers.py: the specifically filtered handlers
(commands, button texts, document/photo in their awaiting states) come
first, then the three catch-all per-state handlers, and only after them
the /cancel handler — so in any FileUpload state a `/cancel` message is
consumed by the catch-all handler of that state and the cancel handler is
unreachable.  Events matching no handler are dropped by aiogram. -/
def dispatchMsg (w : World) (o : Oracle) (uid : Nat) :
    MsgEvent → World × Out
  | MsgEvent.startCmd un => cmd_start_h w uid un
  | MsgEvent.authCmd un args => cmd_auth_h w uid un args
  | MsgEvent.authButton => handle_auth_button_h w uid
  | MsgEvent.logoutButton => gatedMsg w uid (handle_logout_body w uid)
  | MsgEvent.processFileButton => gatedMsg w uid (handle_process_file_body w)
  | MsgEvent.listFilesButton => gatedMsg w uid (handle_list_files_body w uid)
  | MsgEvent.documentMsg fn fu =>
    match w.session with
    | SessionState.awaitingDocument =>
      gatedMsg w uid (handle_document_upload_body w o uid fn fu)
    | SessionState.awaitingPhoto =>
      gatedMsg w uid (handle_wrong_photo_input_body w)
    | SessionState.choosingFileType =>
      gatedMsg w uid (handle_text_instead_of_callback_body w)
    | SessionState.idle => (w, emptyOut)
  | MsgEvent.photoMsg fu =>
    match w.session with
    | SessionState.awaitingPhoto =>
      gatedMsg w uid (handle_photo_upload_body w o uid fu)
    | SessionState.awaitingDocument =>
      gatedMsg w uid (handle_wrong_document_input_body w)
    | SessionState.choosingFileType =>
      gatedMsg w uid (handle_text_instead_of_callback_body w)
    | SessionState.idle => (w, emptyOut)
  | MsgEvent.cancelCmd =>
    match w.session with
    | SessionState.awaitingDocument =>
      gatedMsg w uid (handle_wrong_document_input_body w)
    | SessionState.awaitingPhoto =>
      gatedMsg w uid (handle_wrong_photo_input_body w)
    | SessionState.choosingFileType =>
      gatedMsg w uid (handle_text_instead_of_callback_body w)
    | SessionState.idle => (w, emptyOut)
  | MsgEvent.otherText _ =>
    match w.session with
    | SessionState.awaitingDocument =>
      gatedMsg w uid (handle_wrong_document_input_body w)
    | SessionState.awaitingPhoto =>
      gatedMsg w uid (handle_wrong_photo_input_body w)
    | SessionState.choosingFileType =>
      gatedMsg w uid (handle_text_instead_of_callback_body w)
    | SessionState.idle => (w, emptyOut)

/-- Callback-query dispatch: the file-type callback only matches in state
ChoosingKind; the delete callback matches in any state. -/
def dispatchCb (w : World) (uid : Nat) : CbEvent → World × Out
  | CbEvent.fileTypeCb t =>
    match w.session with
    | SessionState.choosingFileType =>
      gatedCb w uid (handle_file_type_choice_body w t)
    | _ => (w, emptyOut)
  | CbEvent.deleteFileCb fid =>
    gatedCb w uid (handle_delete_file_body w uid fid)

/-! ### Helper predicates and lemmas -/

/-- Whether the key row for this token currently has is_used = true. -/
def keyUsed (db : DB) (tok : String) : Bool :=
  match check_auth_key db tok with
  | some k => k.is_used
  | none => false

theorem find_mark_list (key : String) (k : KeyRec) :
    ∀ l : List KeyRec, l.find? (fun x => x.auth_key == key) = some k →
      (l.map fun x =>
          if x.auth_key == key then { x with is_used := true } else x).find?
        (fun x => x.auth_key == key) = some { k with is_used := true } := by
  intro l
  induction l with
  | nil => intro h; simp [List.find?] at h
  | cons a l ih =>
    intro h
    rw [List.find?_cons] at h
    cases hb : a.auth_key == key with
    | true =>
      rw [hb] at h
      cases h
      simp only [List.map_cons, hb, if_true]
      rw [List.find?_cons]
      simp [hb]
    | false =>
      rw [hb] at h
      simp only [List.map_cons, hb, Bool.false_eq_true, if_false]
      rw [List.find?_cons]
      simp only [hb]
      exact ih h

theorem check_auth_key_mark (db : DB) (tok : String) (k : KeyRec)
    (h : check_auth_key db tok = some k) :
    check_auth_key (mark_key_used db tok) tok = some { k with is_used := true } :=
  find_mark_list tok k db.auth_keys h

theorem find_setauth_list (uid : Nat) :
    ∀ l : List UserRec, (l.find? (fun u => u.user_id == uid)).isSome = true →
      ∃ u', (l.map fun u =>
          if u.user_id == uid then { u with is_authorized := true } else u).find?
        (fun u => u.user_id == uid) = some u' ∧ u'.is_authorized = true := by
  intro l
  induction l with
  | nil => intro h; simp [List.find?] at h
  | cons a l ih =>
    intro h
    rw [List.find?_cons] at h
    cases hb : a.user_id == uid with
    | true =>
      refine ⟨{ a with is_authorized := true }, ?_, rfl⟩
      simp only [List.map_cons, hb, if_true]
      rw [List.find?_cons]
      simp [hb]
    | false =>
      rw [hb] at h
      obtain ⟨u', hu', ha'⟩ := ih h
      refine ⟨u', ?_, ha'⟩
      simp only [List.map_cons, hb, Bool.false_eq_true, if_false]
      rw [List.find?_cons]
      simp only [hb]
      exact hu'

theorem isAuthorized_set_auth (db : DB) (uid : Nat)
    (h : userExists db uid = true) :
    isAuthorized (set_user_authorized_in_transaction db uid) uid = true := by
  obtain ⟨u', hu', ha'⟩ := find_setauth_list uid db.users h
  unfold isAuthorized get_user set_user_authorized_in_transaction
  simp only [hu', ha']

/-- Marking a key does not touch the users table. -/
theorem userExists_mark (db : DB) (tok : String) (uid : Nat) :
    userExists (mark_key_used db tok) uid = userExists db uid := rfl

/-- Setting a user's flag does not touch the auth_keys table. -/
theorem keyUsed_set_auth (db : DB) (uid : Nat) (tok : String) :
    keyUsed (set_user_authorized_in_transaction db uid) tok = keyUsed db tok := rfl

/-- Shared success-branch analysis of the redeem transaction: on an
existing unused key it commits exactly the two writes. -/
theorem authorize_success_eq (db : DB) (uid : Nat) (tok : String)
    (k : KeyRec) (hk : check_auth_key db tok = some k)
    (hu : k.is_used = false) :
    authorize_user_with_key db uid tok =
      (set_user_authorized_in_transaction (mark_key_used db tok) uid,
       true, authOkMsg) ∧
    keyUsed (authorize_user_with_key db uid tok).1 tok = true ∧
    (userExists db uid = true →
      isAuthorized (authorize_user_with_key db uid tok).1 uid = true) := by
  have heq : authorize_user_with_key db uid tok =
      (set_user_authorized_in_transaction (mark_key_used db tok) uid,
       true, authOkMsg) := by
    unfold authorize_user_with_key
    rw [hk]
    simp [hu]
  refine ⟨heq, ?_, ?_⟩
  · rw [heq]
    show keyUsed
      (set_user_authorized_in_transaction (mark_key_used db tok) uid) tok = true
    rw [keyUsed_set_auth]
    unfold keyUsed
    rw [check_auth_key_mark db tok k hk]
  · intro hex
    rw [heq]
    exact isAuthorized_set_auth (mark_key_used db tok) uid hex

/-! ### Claim C1 -/

/-- Claim C1: `Redeem` (authorize_user_with_key) returns ok=false with the
invalid-token message and an unchanged store when no key row with this
token exists; returns ok=false with the token-already-used message and an
unchanged store when the key row exists with used=true; and otherwise,
atomically, returns ok=true with a store to which exactly the two writes
(key used := true, user's authorized := true) have been applied — the
returned store shows both writes or neither, never one. -/
theorem claim1_redeem_spec (db : DB) (uid : Nat) (tok : String) :
    (check_auth_key db tok = none →
      authorize_user_with_key db uid tok = (db, false, invalidKeyMsg)) ∧
    (∀ k, check_auth_key db tok = some k → k.is_used = true →
      authorize_user_with_key db uid tok = (db, false, usedKeyMsg)) ∧
    (∀ k, check_auth_key db tok = some k → k.is_used = false →
      authorize_user_with_key db uid tok =
        (set_user_authorized_in_transaction (mark_key_used db tok) uid,
         true, authOkMsg) ∧
      keyUsed (authorize_user_with_key db uid tok).1 tok = true ∧
      (userExists db uid = true →
        isAuthorized (authorize_user_with_key db uid tok).1 uid = true)) := by
  refine ⟨?_, ?_, ?_⟩
  · intro h
    unfold authorize_user_with_key
    rw [h]
  · intro k hk hu
    unfold authorize_user_with_key
    rw [hk]
    simp [hu]
  · intro k hk hu
    exact authorize_success_eq db uid tok k hk hu

/-- Concrete witness database for the redeem claims: two registered,
unauthorized users and one unused key "K1". -/
def redeemDb : DB :=
  { users := [⟨1, none, 0, false⟩, ⟨2, none, 0, false⟩],
    auth_keys := [⟨"K1", false⟩],
    storage := [], next_file_id := 1, now := 0 }

/-- Witness for C1: redeeming the unused key "K1" as registered user 1
succeeds, marks the key used and authorizes the user. -/
theorem claim1_redeem_spec_witness :
    authorize_user_with_key redeemDb 1 "K1" =
      (set_user_authorized_in_transaction (mark_key_used redeemDb "K1") 1,
       true, authOkMsg) ∧
    keyUsed (authorize_user_with_key redeemDb 1 "K1").1 "K1" = true ∧
    isAuthorized (authorize_user_with_key redeemDb 1 "K1").1 1 = true := by
  have h := (claim1_redeem_spec redeemDb 1 "K1").2.2 ⟨"K1", false⟩ rfl rfl
  exact ⟨h.1, h.2.1, h.2.2 rfl⟩

/-! ### Claim C2: serialized concurrent redemption

The FOR UPDATE row lock in check_auth_key serializes concurrent
transactions redeeming the same token: every interleaving of Redeem calls
is equivalent to some sequential order of the whole transactions, and the
loser of the race re-reads the row after the winner commits.  `redeemAll`
runs such a serialized schedule. -/

/-- Run a serialized schedule of Redeem calls (user id, token), returning
the final store and the (ok, message) result of each call in order. -/
def redeemAll : DB → List (Nat × String) → DB × List (Bool × String)
  | db, [] => (db, [])
  | db, c :: rest =>
    ((redeemAll (authorize_user_with_key db c.1 c.2).1 rest).1,
     (authorize_user_with_key db c.1 c.2).2 ::
       (redeemAll (authorize_user_with_key db c.1 c.2).1 rest).2)

/-- Number of ok=true results among the calls that used token `tok`. -/
def countSucc (tok : String) (calls : List (Nat × String))
    (results : List (Bool × String)) : Nat :=
  ((calls.zip results).filter (fun p => p.1.2 == tok && p.2.1)).length

theorem mark_keeps_auth_key (x : KeyRec) (t : String) :
    (if x.auth_key == t then { x with is_used := true } else x).auth_key =
      x.auth_key := by
  by_cases h : x.auth_key == t <;> simp [h]

/-- Recursive reading of "the key row for `tok` has is_used = true". -/
def listKeyUsed : List KeyRec → String → Bool
  | [], _ => false
  | k :: l, tok => if k.auth_key == tok then k.is_used else listKeyUsed l tok

theorem keyUsed_eq_list (tok : String) :
    ∀ l : List KeyRec,
      (match l.find? (fun k => k.auth_key == tok) with
       | some k => k.is_used
       | none => false) = listKeyUsed l tok := by
  intro l
  induction l with
  | nil => rfl
  | cons a l ih =>
    rw [List.find?_cons]
    cases hb : a.auth_key == tok with
    | true => simp [listKeyUsed, hb]
    | false => simp [listKeyUsed, hb, ih]

theorem keyUsed_as_list (db : DB) (tok : String) :
    keyUsed db tok = listKeyUsed db.auth_keys tok :=
  keyUsed_eq_list tok db.auth_keys

theorem listKeyUsed_mark_mono (t tok : String) :
    ∀ l : List KeyRec, listKeyUsed l tok = true →
      listKeyUsed
        (l.map fun k => if k.auth_key == t then { k with is_used := true } else k)
        tok = true := by
  intro l
  induction l with
  | nil => intro h; simp [listKeyUsed] at h
  | cons a l ih =>
    intro h
    rw [List.map_cons]
    by_cases ht : (a.auth_key == t) = true
    · rw [if_pos ht]
      unfold listKeyUsed at h ⊢
      by_cases hb : (a.auth_key == tok) = true
      · simp [hb]
      · simp only [hb, Bool.false_eq_true, if_false] at h ⊢
        exact ih h
    · rw [if_neg ht]
      unfold listKeyUsed at h ⊢
      by_cases hb : (a.auth_key == tok) = true
      · simp only [hb, if_true] at h ⊢
        exact h
      · simp only [hb, Bool.false_eq_true, if_false] at h ⊢
        exact ih h

theorem keyUsed_mark_mono (db : DB) (t tok : String)
    (h : keyUsed db tok = true) : keyUsed (mark_key_used db t) tok = true := by
  rw [keyUsed_as_list] at h ⊢
  exact listKeyUsed_mark_mono t tok db.auth_keys h

theorem keyUsed_authorize_mono (db : DB) (u : Nat) (t tok : String)
    (h : keyUsed db tok = true) :
    keyUsed (authorize_user_with_key db u t).1 tok = true := by
  unfold authorize_user_with_key
  cases hc : check_auth_key db t with
  | none => exact h
  | some k =>
    by_cases hu : k.is_used
    · simp [hu, h]
    · simp only [hu, Bool.false_eq_true, if_false]
      rw [keyUsed_set_auth]
      exact keyUsed_mark_mono db t tok h

theorem authorize_used_result (db : DB) (u : Nat) (tok : String)
    (h : keyUsed db tok = true) :
    authorize_user_with_key db u tok = (db, false, usedKeyMsg) := by
  unfold keyUsed at h
  cases hc : check_auth_key db tok with
  | none => rw [hc] at h; exact absurd h (by simp)
  | some k =>
    rw [hc] at h
    unfold authorize_user_with_key
    rw [hc]
    simp only at h
    simp [h]

theorem authorize_success_marks (db : DB) (u : Nat) (tok : String)
    (h : (authorize_user_with_key db u tok).2.1 = true) :
    keyUsed (authorize_user_with_key db u tok).1 tok = true := by
  cases hc : check_auth_key db tok with
  | none =>
    unfold authorize_user_with_key at h
    rw [hc] at h
    simp at h
  | some k =>
    by_cases hu : k.is_used = true
    · rw [authorize_used_result db u tok (by unfold keyUsed; rw [hc]; exact hu)] at h
      simp at h
    · have := authorize_success_eq db u tok k hc (by
        cases hx : k.is_used
        · rfl
        · exact absurd hx hu)
      exact this.2.1

theorem all_used_after (tok : String) :
    ∀ (calls : List (Nat × String)) (db : DB), keyUsed db tok = true →
      (∀ q ∈ calls.zip (redeemAll db calls).2, q.1.2 = tok →
        q.2 = (false, usedKeyMsg)) ∧
      keyUsed (redeemAll db calls).1 tok = true := by
  intro calls
  induction calls with
  | nil => intro db h; exact ⟨by intro q hq; simp [redeemAll] at hq, h⟩
  | cons c rest ih =>
    intro db h
    have hmono : keyUsed (authorize_user_with_key db c.1 c.2).1 tok = true :=
      keyUsed_authorize_mono db c.1 c.2 tok h
    obtain ⟨ihq, ihk⟩ := ih (authorize_user_with_key db c.1 c.2).1 hmono
    constructor
    · intro q hq hqt
      rw [show redeemAll db (c :: rest) =
        ((redeemAll (authorize_user_with_key db c.1 c.2).1 rest).1,
         (authorize_user_with_key db c.1 c.2).2 ::
           (redeemAll (authorize_user_with_key db c.1 c.2).1 rest).2) from rfl]
        at hq
      simp only [List.zip_cons_cons, List.mem_cons] at hq
      cases hq with
      | inl he =>
        subst he
        have ht : c.2 = tok := hqt
        show (authorize_user_with_key db c.1 c.2).2 = (false, usedKeyMsg)
        rw [ht, authorize_used_result db c.1 tok h]
      | inr hm => exact ihq q hm hqt
    · exact ihk

theorem countSucc_zero_of_used (tok : String) :
    ∀ (calls : List (Nat × String)) (db : DB), keyUsed db tok = true →
      countSucc tok calls (redeemAll db calls).2 = 0 := by
  intro calls
  induction calls with
  | nil => intro db _; rfl
  | cons c rest ih =>
    intro db h
    unfold countSucc
    rw [show (redeemAll db (c :: rest)).2 =
      (authorize_user_with_key db c.1 c.2).2 ::
        (redeemAll (authorize_user_with_key db c.1 c.2).1 rest).2 from rfl]
    rw [List.zip_cons_cons, List.filter_cons]
    have hcond : (c.2 == tok && (authorize_user_with_key db c.1 c.2).2.1) = false := by
      cases hb : c.2 == tok with
      | false => simp
      | true =>
        have ht : c.2 = tok := eq_of_beq hb
        rw [ht, authorize_used_result db c.1 tok h]
        simp
    rw [hcond]
    exact ih (authorize_user_with_key db c.1 c.2).1
      (keyUsed_authorize_mono db c.1 c.2 tok h)

theorem redeemAll_append :
    ∀ (l1 : List (Nat × String)) (db : DB) (l2 : List (Nat × String)),
      redeemAll db (l1 ++ l2) =
        ((redeemAll (redeemAll db l1).1 l2).1,
         (redeemAll db l1).2 ++ (redeemAll (redeemAll db l1).1 l2).2) := by
  intro l1
  induction l1 with
  | nil => intro db l2; simp [redeemAll]
  | cons c rest ih =>
    intro db l2
    have e1 : redeemAll db ((c :: rest) ++ l2) =
        ((redeemAll (authorize_user_with_key db c.1 c.2).1 (rest ++ l2)).1,
         (authorize_user_with_key db c.1 c.2).2 ::
           (redeemAll (authorize_user_with_key db c.1 c.2).1 (rest ++ l2)).2) :=
      rfl
    have e2 : redeemAll db (c :: rest) =
        ((redeemAll (authorize_user_with_key db c.1 c.2).1 rest).1,
         (authorize_user_with_key db c.1 c.2).2 ::
           (redeemAll (authorize_user_with_key db c.1 c.2).1 rest).2) := rfl
    rw [e1, e2, ih]
    rfl

theorem redeemAll_length (calls : List (Nat × String)) :
    ∀ db : DB, (redeemAll db calls).2.length = calls.length := by
  induction calls with
  | nil => intro db; rfl
  | cons c rest ih =>
    intro db
    simp only [redeemAll, List.length_cons]
    rw [ih]

/-- Claim C2: over any serialized schedule of Redeem calls (the FOR
UPDATE row lock makes every concurrent interleaving equivalent to such a
schedule), at most one call for a given token returns ok=true; after the
successful call, every later call with that token returns ok=false with
the already-used message (it observes the committed used=true row), and
the token's key row stays used=true in the final store — so two distinct
users can never both be authorized from the single use of one token. -/
theorem claim2_redeem_at_most_once (db : DB) (calls : List (Nat × String))
    (tok : String) :
    countSucc tok calls (redeemAll db calls).2 ≤ 1 ∧
    (∀ pre u suf, calls = pre ++ (u, tok) :: suf →
      (redeemAll db calls).2.get? pre.length = some (true, authOkMsg) →
      (∀ q ∈ suf.zip ((redeemAll db calls).2.drop (pre.length + 1)),
        q.1.2 = tok → q.2 = (false, usedKeyMsg)) ∧
      keyUsed (redeemAll db calls).1 tok = true) := by
  constructor
  · induction calls generalizing db with
    | nil => simp [redeemAll, countSucc]
    | cons c rest ih =>
      unfold countSucc
      rw [show (redeemAll db (c :: rest)).2 =
        (authorize_user_with_key db c.1 c.2).2 ::
          (redeemAll (authorize_user_with_key db c.1 c.2).1 rest).2 from rfl]
      rw [List.zip_cons_cons, List.filter_cons]
      cases hcond : (c.2 == tok && (authorize_user_with_key db c.1 c.2).2.1) with
      | false =>
        simp only [Bool.false_eq_true, if_false]
        have := ih (authorize_user_with_key db c.1 c.2).1
        unfold countSucc at this
        exact this
      | true =>
        have hcond' := hcond
        simp only [Bool.and_eq_true] at hcond'
        have ht : c.2 = tok := eq_of_beq hcond'.1
        have hk : keyUsed (authorize_user_with_key db c.1 c.2).1 tok = true := by
          rw [ht] at hcond' ⊢
          exact authorize_success_marks db c.1 tok hcond'.2
        have h0 := countSucc_zero_of_used tok rest
          (authorize_user_with_key db c.1 c.2).1 hk
        unfold countSucc at h0
        rw [if_pos rfl, List.length_cons, h0]
  · intro pre u suf hsplit hsucc
    subst hsplit
    have hdec := redeemAll_append pre db ((u, tok) :: suf)
    have hlen := redeemAll_length pre db
    have h2 : (redeemAll db (pre ++ (u, tok) :: suf)).2 =
        (redeemAll db pre).2 ++
          (authorize_user_with_key (redeemAll db pre).1 u tok).2 ::
            (redeemAll
              (authorize_user_with_key (redeemAll db pre).1 u tok).1 suf).2 := by
      rw [hdec]
      rfl
    have h1 : (redeemAll db (pre ++ (u, tok) :: suf)).1 =
        (redeemAll
          (authorize_user_with_key (redeemAll db pre).1 u tok).1 suf).1 := by
      rw [hdec]
      rfl
    rw [h2] at hsucc
    rw [List.get?_append_right (Nat.le_of_eq hlen)] at hsucc
    have hz : pre.length - (redeemAll db pre).2.length = 0 := by
      rw [hlen]
      exact Nat.sub_self _
    rw [hz] at hsucc
    simp only [List.get?_cons_zero, Option.some.injEq] at hsucc
    have hok : (authorize_user_with_key (redeemAll db pre).1 u tok).2.1 = true := by
      rw [hsucc]
    have hk : keyUsed
        (authorize_user_with_key (redeemAll db pre).1 u tok).1 tok = true :=
      authorize_success_marks (redeemAll db pre).1 u tok hok
    obtain ⟨hall, hfin⟩ := all_used_after tok suf
      (authorize_user_with_key (redeemAll db pre).1 u tok).1 hk
    constructor
    · intro q hq hqt
      apply hall q ?_ hqt
      rw [h2] at hq
      have hdrop : ((redeemAll db pre).2 ++
          (authorize_user_with_key (redeemAll db pre).1 u tok).2 ::
            (redeemAll
              (authorize_user_with_key (redeemAll db pre).1 u tok).1 suf).2).drop
            (pre.length + 1) =
          (redeemAll
            (authorize_user_with_key (redeemAll db pre).1 u tok).1 suf).2 := by
        rw [List.append_cons]
        refine List.drop_left' ?_
        simp [hlen]
      rw [hdrop] at hq
      exact hq
    · rw [h1]
      exact hfin

/-- Witness for C2: users 1 and 2 race on "K1"; the first call succeeds,
the later caller gets (false, already-used), and the key stays used. -/
theorem claim2_redeem_at_most_once_witness :
    countSucc "K1" [(1, "K1"), (2, "K1")]
      (redeemAll redeemDb [(1, "K1"), (2, "K1")]).2 ≤ 1 ∧
    (∀ q ∈ [(2, "K1")].zip
        ((redeemAll redeemDb [(1, "K1"), (2, "K1")]).2.drop 1),
      q.1.2 = "K1" → q.2 = (false, usedKeyMsg)) ∧
    keyUsed (redeemAll redeemDb [(1, "K1"), (2, "K1")]).1 "K1" = true := by
  have h := claim2_redeem_at_most_once redeemDb [(1, "K1"), (2, "K1")] "K1"
  have h2 := h.2 [] 1 [(2, "K1")] rfl (by rfl)
  exact ⟨h.1, h2.1, h2.2⟩

/-! ### Claim C3: DeleteFile by a non-owner -/

/-- Store with file 5 owned by user 1 and a second authorized user 2. -/
def c3World : World :=
  { db := { users := [⟨1, some "owner", 0, true⟩, ⟨2, some "intruder", 0, true⟩],
            auth_keys := [],
            storage := [⟨5, 1, "temp/1/abc.pdf", "report.pdf",
                         FileType.document, 0⟩],
            next_file_id := 6, now := 1 },
    disk := ["temp/1/abc.pdf"], session := SessionState.idle }

/-- Claim C3 fails on the code: handle_delete_file deletes the ledger row
by id before any ownership comparison, so authorized user 2 deleting file
5 owned by user 1 removes the row, removes the blob from disk, answers
"Файл видалено." and empties the owner's subsequent ListFiles — instead
of the claimed Forbidden outcome with the row left untouched.  (The
permission-denied branch of the handler is only reachable when the row
was already gone.) -/
theorem claim3_nonowner_delete_succeeds :
    (dispatchCb c3World 2 (CbEvent.deleteFileCb 5)).1.db.storage = [] ∧
    (dispatchCb c3World 2 (CbEvent.deleteFileCb 5)).1.disk = [] ∧
    (dispatchCb c3World 2 (CbEvent.deleteFileCb 5)).2.answers =
      [fileDeletedAnswer] ∧
    get_user_files (dispatchCb c3World 2 (CbEvent.deleteFileCb 5)).1.db 1 = [] :=
  ⟨rfl, rfl, rfl, rfl⟩

/-! ### Claim C4: ledger insert failure after a successful blob write -/

/-- World in which the uploading user's row is gone from `users` (deleted
concurrently after the authorization guard passed) while the session is
still AwaitingDocument: the storage INSERT will hit the FK violation. -/
def c4World : World :=
  { db := { users := [], auth_keys := [], storage := [],
            next_file_id := 1, now := 5 },
    disk := [], session := SessionState.awaitingDocument }

/-- Counterexample to C4 as stated: with the blob write succeeding and the
ledger insert failing with the referential violation (user row gone),
the handler body logs the inconsistency but reports SUCCESS to the user
("Документ ... завантажено!"), leaving the orphaned blob on disk and no
ledger row — the error is swallowed inside add_file_record, not surfaced. -/
theorem claim4_counterexample :
    (handle_document_upload_body c4World ⟨true, false⟩ 9 (some "report.pdf")
        "u1").2.replies =
      [⟨docUploadedMsg "report.pdf", some Menu.authorized⟩] ∧
    (handle_document_upload_body c4World ⟨true, false⟩ 9 (some "report.pdf")
        "u1").1.db.storage = [] ∧
    (handle_document_upload_body c4World ⟨true, false⟩ 9 (some "report.pdf")
        "u1").1.disk = [save_path 9 "u1.pdf"] ∧
    (handle_document_upload_body c4World ⟨true, false⟩ 9 (some "report.pdf")
        "u1").2.logLines = [addFileIntegrityLog] :=
  ⟨rfl, rfl, rfl, rfl⟩

/-- Claim C4 as amended: for both accepted submission kinds (a document
in AwaitingDocument, a photo in AwaitingPhoto), if the ledger insert
fails after the blob was written, the outcome depends on the failure
kind — a referential violation is logged as an inconsistency but NOT
surfaced (the handler reports success); any other insert failure
propagates and the handler reports a failure.  In all cases no ledger
row is added and the session is cleared. -/
theorem claim4_amended (w : World) (o : Oracle) (uid : Nat)
    (fn : Option String) (fu : String)
    (hsave : o.saveOk = true) :
    (allowedDocExtensions.contains
        (lowerStr (pySuffix (fn.getD "unknown_document"))) = true →
      (userExists w.db uid = false →
        (handle_document_upload_body w o uid fn fu).2.replies =
          [⟨docUploadedMsg (fn.getD "unknown_document"),
            some Menu.authorized⟩] ∧
        (handle_document_upload_body w o uid fn fu).1.db.storage =
          w.db.storage ∧
        (handle_document_upload_body w o uid fn fu).2.logLines =
          [addFileIntegrityLog] ∧
        (handle_document_upload_body w o uid fn fu).1.session =
          SessionState.idle) ∧
      (userExists w.db uid = true → o.insertFail = true →
        (handle_document_upload_body w o uid fn fu).2.replies =
          [⟨dbErrDocMsg, none⟩] ∧
        (handle_document_upload_body w o uid fn fu).1.db.storage =
          w.db.storage ∧
        (handle_document_upload_body w o uid fn fu).2.logLines =
          [addFileUnexpectedLog] ∧
        (handle_document_upload_body w o uid fn fu).1.session =
          SessionState.idle)) ∧
    (userExists w.db uid = false →
      (handle_photo_upload_body w o uid fu).2.replies =
        [⟨photoUploadedMsg, some Menu.authorized⟩] ∧
      (handle_photo_upload_body w o uid fu).1.db.storage = w.db.storage ∧
      (handle_photo_upload_body w o uid fu).2.logLines =
        [addFileIntegrityLog] ∧
      (handle_photo_upload_body w o uid fu).1.session = SessionState.idle) ∧
    (userExists w.db uid = true → o.insertFail = true →
      (handle_photo_upload_body w o uid fu).2.replies =
        [⟨dbErrPhotoMsg, none⟩] ∧
      (handle_photo_upload_body w o uid fu).1.db.storage = w.db.storage ∧
      (handle_photo_upload_body w o uid fu).2.logLines =
        [addFileUnexpectedLog] ∧
      (handle_photo_upload_body w o uid fu).1.session = SessionState.idle) := by
  refine ⟨fun hext => ⟨?_, ?_⟩, ?_, ?_⟩
  · intro huser
    simp only [handle_document_upload_body, hext, Bool.not_true,
      Bool.false_eq_true, if_false, save_uploaded_file, hsave, if_true,
      add_file_record, huser]
    refine ⟨?_, ?_, ?_, ?_⟩ <;> trivial
  · intro huser hfail
    simp only [handle_document_upload_body, hext, Bool.not_true,
      Bool.false_eq_true, if_false, save_uploaded_file, hsave, if_true,
      add_file_record, huser, hfail]
    refine ⟨?_, ?_, ?_, ?_⟩ <;> trivial
  · intro huser
    simp only [handle_photo_upload_body, save_uploaded_file, hsave, if_true,
      add_file_record, huser]
    refine ⟨?_, ?_, ?_, ?_⟩ <;> trivial
  · intro huser hfail
    simp only [handle_photo_upload_body, save_uploaded_file, hsave, if_true,
      add_file_record, huser, hfail]
    refine ⟨?_, ?_, ?_, ?_⟩ <;> trivial

/-- Witness for the amended C4 at the concrete FK-violation input, on
both the document and the photo paths. -/
theorem claim4_amended_witness :
    ((handle_document_upload_body c4World ⟨true, false⟩ 9 (some "report.pdf")
        "u1").2.replies =
      [⟨docUploadedMsg "report.pdf", some Menu.authorized⟩] ∧
    (handle_document_upload_body c4World ⟨true, false⟩ 9 (some "report.pdf")
        "u1").1.db.storage = c4World.db.storage ∧
    (handle_document_upload_body c4World ⟨true, false⟩ 9 (some "report.pdf")
        "u1").2.logLines = [addFileIntegrityLog] ∧
    (handle_document_upload_body c4World ⟨true, false⟩ 9 (some "report.pdf")
        "u1").1.session = SessionState.idle) ∧
    ((handle_photo_upload_body c4World ⟨true, false⟩ 9 "p1").2.replies =
      [⟨photoUploadedMsg, some Menu.authorized⟩] ∧
    (handle_photo_upload_body c4World ⟨true, false⟩ 9 "p1").1.db.storage =
      c4World.db.storage ∧
    (handle_photo_upload_body c4World ⟨true, false⟩ 9 "p1").2.logLines =
      [addFileIntegrityLog] ∧
    (handle_photo_upload_body c4World ⟨true, false⟩ 9 "p1").1.session =
      SessionState.idle) :=
  ⟨((claim4_amended c4World ⟨true, false⟩ 9 (some "report.pdf") "u1" rfl).1
      rfl).1 rfl,
   (claim4_amended c4World ⟨true, false⟩ 9 (some "report.pdf") "p1" rfl).2.1
      rfl⟩

/-! ### Claim C5: blob-write failure and the session state -/

/-- World with authorized user 3 whose session awaits a document. -/
def docSessionWorld : World :=
  { db := { users := [⟨3, some "bob", 0, true⟩], auth_keys := [], storage := [],
            next_file_id := 1, now := 1 },
    disk := [], session := SessionState.awaitingDocument }

/-- Counterexample to C5 as stated: when the blob download fails for an
accepted document submission, the handler reports the storage error but
does NOT clear the session — the state is still AwaitingDocument, not
Idle (the handler returns early before any state.clear()). -/
theorem claim5_counterexample :
    (dispatchMsg docSessionWorld ⟨false, false⟩ 3
        (MsgEvent.documentMsg (some "report.pdf") "u2")).1.session =
      SessionState.awaitingDocument ∧
    SessionState.awaitingDocument ≠ SessionState.idle ∧
    (dispatchMsg docSessionWorld ⟨false, false⟩ 3
        (MsgEvent.documentMsg (some "report.pdf") "u2")).2.replies =
      [⟨saveFailDocMsg, none⟩] :=
  ⟨rfl, by decide, rfl⟩

/-- Claim C5 as amended: on a FileStore (blob write) failure the handler
reports a storage error and leaves the whole world unchanged — in
particular the session REMAINS in the awaiting state (so the user can
resend or cancel), no ledger row is created and no blob is recorded; the
session is not cleared to Idle. -/
theorem claim5_amended (w : World) (o : Oracle) (uid : Nat)
    (fn : Option String) (fu : String)
    (hauth : isAuthorized w.db uid = true)
    (hsave : o.saveOk = false) :
    (w.session = SessionState.awaitingDocument →
      allowedDocExtensions.contains
        (lowerStr (pySuffix (fn.getD "unknown_document"))) = true →
      dispatchMsg w o uid (MsgEvent.documentMsg fn fu) =
        (w, ⟨[⟨saveFailDocMsg, none⟩], [], []⟩)) ∧
    (w.session = SessionState.awaitingPhoto →
      dispatchMsg w o uid (MsgEvent.photoMsg fu) =
        (w, ⟨[⟨saveFailPhotoMsg, none⟩], [], []⟩)) := by
  constructor
  · intro hsess hext
    simp only [dispatchMsg, hsess, gatedMsg, hauth, if_true,
      handle_document_upload_body, hext, Bool.not_true, Bool.false_eq_true,
      if_false, save_uploaded_file, hsave]
  · intro hsess
    simp only [dispatchMsg, hsess, gatedMsg, hauth, if_true,
      handle_photo_upload_body, save_uploaded_file, hsave,
      Bool.false_eq_true, if_false]

/-- Witness for the amended C5 at a concrete failing download. -/
theorem claim5_amended_witness :
    dispatchMsg docSessionWorld ⟨false, false⟩ 3
        (MsgEvent.documentMsg (some "report.pdf") "u2") =
      (docSessionWorld, ⟨[⟨saveFailDocMsg, none⟩], [], []⟩) :=
  (claim5_amended docSessionWorld ⟨false, false⟩ 3 (some "report.pdf") "u2"
    rfl rfl).1 rfl rfl

/-! ### Claim C6: the session state machine edges -/

/-- Claim C6 meets a code bug: the spec's legal edge "cancel to Idle from
any non-Idle state" is unreachable in the code.  The catch-all wrong-input
handler for AwaitingDocument is registered before the /cancel command
handler and matches every message in that state, so a `/cancel` message
leaves the session in AwaitingDocument and produces the wrong-input
retry reply — the cancel handler (which would clear to Idle) never runs,
even though the bot's own prompts advertise /cancel. -/
theorem claim6_cancel_shadowed :
    dispatchMsg docSessionWorld ⟨true, false⟩ 3 MsgEvent.cancelCmd =
      (docSessionWorld, ⟨[⟨wrongDocInputMsg, none⟩], [], []⟩) ∧
    docSessionWorld.session = SessionState.awaitingDocument :=
  ⟨rfl, rfl⟩

/-! ### Claim C8: extension allow-list checked before any effect -/

/-- Claim C8: for a document submission in state AwaitingDocument whose
filename extension is not in the allow-list, the dispatcher returns the
world completely unchanged (session still AwaitingDocument, no blob
written, no ledger row) together with the single rejection reply that
reports the allowed extension set — the check precedes every transition
and storage attempt. -/
theorem claim8_extension_rejected (w : World) (o : Oracle) (uid : Nat)
    (fn : Option String) (fu : String)
    (hsess : w.session = SessionState.awaitingDocument)
    (hauth : isAuthorized w.db uid = true)
    (hext : allowedDocExtensions.contains
      (lowerStr (pySuffix (fn.getD "unknown_document"))) = false) :
    dispatchMsg w o uid (MsgEvent.documentMsg fn fu) =
      (w, ⟨[⟨wrongFormatMsg (lowerStr (pySuffix (fn.getD "unknown_document"))),
            none⟩], [], []⟩) := by
  simp only [dispatchMsg, hsess, gatedMsg, hauth, if_true,
    handle_document_upload_body, hext, Bool.not_false, if_true]

/-- Witness for C8: submitting "virus.exe" while awaiting a document
leaves the world unchanged and reports the allowed set. -/
theorem claim8_extension_rejected_witness :
    dispatchMsg docSessionWorld ⟨true, false⟩ 3
        (MsgEvent.documentMsg (some "virus.exe") "u3") =
      (docSessionWorld, ⟨[⟨wrongFormatMsg ".exe", none⟩], [], []⟩) :=
  claim8_extension_rejected docSessionWorld ⟨true, false⟩ 3 (some "virus.exe")
    "u3" rfl rfl rfl

/-! ### Claim C9: the require_authorization gate -/

/-- The message events whose (state-dependent) matching handler is wrapped
in require_authorization: logout, begin upload, list files, and — in any
non-Idle session state — document/photo submissions and every other
message (the three catch-all wrong-input handlers).  /start, /auth and the
authorization button are ungated; in Idle those other messages match no
handler at all. -/
def isGatedMsg (s : SessionState) : MsgEvent → Bool
  | MsgEvent.logoutButton => true
  | MsgEvent.processFileButton => true
  | MsgEvent.listFilesButton => true
  | MsgEvent.documentMsg _ _ => s != SessionState.idle
  | MsgEvent.photoMsg _ => s != SessionState.idle
  | MsgEvent.cancelCmd => s != SessionState.idle
  | MsgEvent.otherText _ => s != SessionState.idle
  | _ => false

/-- The callback events whose matching handler is gated: the kind choice
(only matched in ChoosingKind) and the delete button (any state). -/
def isGatedCb (s : SessionState) : CbEvent → Bool
  | CbEvent.fileTypeCb _ => s == SessionState.choosingFileType
  | CbEvent.deleteFileCb _ => true

/-- Claim C9: every gated operation consults the users table's current
is_authorized flag at dispatch time; when the user is unknown or the flag
is false, the handler body does not run — the world (store, disk,
session) is returned unchanged — and the user receives the unauthorized
message with the unauthorized menu. -/
theorem claim9_gate_blocks_unauthorized (w : World) (o : Oracle) (uid : Nat)
    (hunauth : isAuthorized w.db uid = false) :
    (∀ e : MsgEvent, isGatedMsg w.session e = true →
      dispatchMsg w o uid e = (w, unauthorizedOutMsg)) ∧
    (∀ e : CbEvent, isGatedCb w.session e = true →
      dispatchCb w uid e = (w, unauthorizedOutCb)) := by
  constructor
  · intro e he
    cases e <;> cases hs : w.session <;>
      simp_all [dispatchMsg, isGatedMsg, gatedMsg, hunauth]
  · intro e he
    cases e <;> cases hs : w.session <;>
      simp_all [dispatchCb, isGatedCb, gatedCb, hunauth]

/-- World with a registered but unauthorized user 4 in a document session. -/
def unauthWorld : World :=
  { db := { users := [⟨4, some "eve", 0, false⟩], auth_keys := [],
            storage := [⟨9, 4, "temp/4/x.pdf", "x.pdf", FileType.document, 0⟩],
            next_file_id := 10, now := 1 },
    disk := ["temp/4/x.pdf"], session := SessionState.awaitingDocument }

/-- Witness for C9: the unauthorized user 4 is blocked on a gated message
event and on a gated callback event, both leaving the world unchanged. -/
theorem claim9_gate_blocks_unauthorized_witness :
    dispatchMsg unauthWorld ⟨true, false⟩ 4 MsgEvent.listFilesButton =
      (unauthWorld, unauthorizedOutMsg) ∧
    dispatchCb unauthWorld 4 (CbEvent.deleteFileCb 9) =
      (unauthWorld, unauthorizedOutCb) :=
  ⟨(claim9_gate_blocks_unauthorized unauthWorld ⟨true, false⟩ 4 rfl).1
      MsgEvent.listFilesButton rfl,
   (claim9_gate_blocks_unauthorized unauthWorld ⟨true, false⟩ 4 rfl).2
      (CbEvent.deleteFileCb 9) rfl⟩

/-! ### Claim C7: ListFiles -/

theorem userExists_of_isAuthorized (db : DB) (uid : Nat)
    (h : isAuthorized db uid = true) : userExists db uid = true := by
  unfold isAuthorized at h
  unfold userExists
  cases hget : get_user db uid with
  | none => rw [hget] at h; exact absurd h (by simp)
  | some u => rfl

/-- Every joined row takes its timestamp from some storage row. -/
theorem joinedRows_storage (db : DB) (uid : Nat) :
    ∀ b ∈ joinedRows db uid, ∃ s ∈ db.storage, b.uploaded_at = s.uploaded_at := by
  intro b hb
  simp only [joinedRows, List.mem_filterMap, List.mem_filter] at hb
  obtain ⟨s, ⟨hs, _⟩, hg⟩ := hb
  cases hget : get_user db s.user_id with
  | none => rw [hget] at hg; simp at hg
  | some u =>
    rw [hget] at hg
    simp only [Option.map_some', Option.some.injEq] at hg
    exact ⟨s, hs, by rw [← hg]⟩

/-- If the head element strictly dominates the tail timestamps, insertion
sort keeps it first. -/
theorem head_insertionSort_cons_max (a : JoinedFile) (l : List JoinedFile)
    (h : ∀ b ∈ l, b.uploaded_at < a.uploaded_at) :
    ((a :: l).insertionSort newestFirst).head? = some a := by
  rw [List.insertionSort]
  cases hsort : List.insertionSort newestFirst l with
  | nil => rfl
  | cons b t =>
    have hb : b ∈ l := by
      have hmem : b ∈ List.insertionSort newestFirst l := by
        rw [hsort]; exact List.mem_cons_self b t
      exact (List.mem_insertionSort newestFirst).mp hmem
    have hr : newestFirst a b := Nat.le_of_lt (h b hb)
    rw [List.orderedInsert, if_pos hr]
    rfl

/-- World for the upload-then-list witness: authorized user 3, one older
stored file, session awaiting a document. -/
def c7World : World :=
  { db := { users := [⟨3, some "bob", 0, true⟩], auth_keys := [],
            storage := [⟨1, 3, "temp/3/old.pdf", "old.pdf",
                         FileType.document, 0⟩],
            next_file_id := 2, now := 1 },
    disk := ["temp/3/old.pdf"], session := SessionState.awaitingDocument }

/-- Claim C7: get_user_files is a pure read (the list-files dispatch
returns the world unchanged); its result is sorted newest-first by upload
time and is a permutation of exactly the user's storage rows joined with
the owner's display name (every returned row belongs to the user and
carries the owner's username); and a successful StoreUpload followed by
ListFiles for the same user lists the new file first, with the original
display name preserved verbatim and the generated storage handle distinct
from every prior handle. -/
theorem claim7_list_files :
    (∀ (db : DB) (uid : Nat),
      List.Sorted newestFirst (get_user_files db uid) ∧
      (get_user_files db uid).Perm (joinedRows db uid) ∧
      ∀ f ∈ get_user_files db uid, f.user_id = uid ∧
        ∃ u, get_user db uid = some u ∧ f.username = u.username) ∧
    (∀ (w : World) (o : Oracle) (uid : Nat), isAuthorized w.db uid = true →
      (dispatchMsg w o uid MsgEvent.listFilesButton).1 = w) ∧
    (∀ (w : World) (o : Oracle) (uid : Nat) (fn : Option String)
        (fu : String),
      isAuthorized w.db uid = true →
      w.session = SessionState.awaitingDocument →
      allowedDocExtensions.contains
        (lowerStr (pySuffix (fn.getD "unknown_document"))) = true →
      o.saveOk = true → o.insertFail = false →
      (∀ r ∈ w.db.storage, r.uploaded_at < w.db.now) →
      (∀ r ∈ w.db.storage, r.file_path ≠ save_path uid
        (fu ++ lowerStr (pySuffix (fn.getD "unknown_document")))) →
      ∃ f, (get_user_files
          (dispatchMsg w o uid (MsgEvent.documentMsg fn fu)).1.db uid).head? =
            some f ∧
        f.original_filename = fn.getD "unknown_document" ∧
        f.file_path = save_path uid
          (fu ++ lowerStr (pySuffix (fn.getD "unknown_document"))) ∧
        ∀ r ∈ w.db.storage, f.file_path ≠ r.file_path) := by
  refine ⟨?_, ?_, ?_⟩
  · intro db uid
    refine ⟨List.sorted_insertionSort newestFirst (joinedRows db uid),
      List.perm_insertionSort newestFirst (joinedRows db uid), ?_⟩
    intro f hf
    have hf' : f ∈ joinedRows db uid :=
      (List.mem_insertionSort newestFirst).mp hf
    simp only [joinedRows, List.mem_filterMap, List.mem_filter] at hf'
    obtain ⟨s, ⟨hs, hsu⟩, hg⟩ := hf'
    have hsid : s.user_id = uid := eq_of_beq hsu
    cases hget : get_user db s.user_id with
    | none => rw [hget] at hg; simp at hg
    | some u =>
      rw [hget] at hg
      simp only [Option.map_some', Option.some.injEq] at hg
      rw [← hg]
      exact ⟨hsid, u, by rw [← hsid]; exact hget, rfl⟩
  · intro w o uid hauth
    simp only [dispatchMsg, gatedMsg, hauth, if_true,
      handle_list_files_body]
    split <;> rfl
  · intro w o uid fn fu hauth hsess hext hsave hins hfresh hpath
    have huser := userExists_of_isAuthorized w.db uid hauth
    obtain ⟨u, hget⟩ : ∃ u, get_user w.db uid = some u := by
      unfold userExists at huser
      cases hg : get_user w.db uid with
      | none => rw [hg] at huser; simp at huser
      | some u => exact ⟨u, rfl⟩
    have hdb : (dispatchMsg w o uid (MsgEvent.documentMsg fn fu)).1.db =
        { w.db with
          storage := ⟨w.db.next_file_id, uid,
            save_path uid
              (fu ++ lowerStr (pySuffix (fn.getD "unknown_document"))),
            fn.getD "unknown_document", FileType.document, w.db.now⟩ ::
              w.db.storage,
          next_file_id := w.db.next_file_id + 1,
          now := w.db.now + 1 } := by
      simp only [dispatchMsg, hsess, gatedMsg, hauth, if_true,
        handle_document_upload_body, hext, Bool.not_true, Bool.false_eq_true,
        if_false, save_uploaded_file, hsave, if_true, add_file_record, huser,
        hins]
    rw [hdb]
    refine ⟨⟨w.db.next_file_id, uid,
      save_path uid (fu ++ lowerStr (pySuffix (fn.getD "unknown_document"))),
      fn.getD "unknown_document", FileType.document, w.db.now, u.username⟩,
      ?_, rfl, rfl, ?_⟩
    · have hjoin : joinedRows
          { w.db with
            storage := ⟨w.db.next_file_id, uid,
              save_path uid
                (fu ++ lowerStr (pySuffix (fn.getD "unknown_document"))),
              fn.getD "unknown_document", FileType.document, w.db.now⟩ ::
                w.db.storage,
            next_file_id := w.db.next_file_id + 1,
            now := w.db.now + 1 } uid =
          ⟨w.db.next_file_id, uid,
            save_path uid
              (fu ++ lowerStr (pySuffix (fn.getD "unknown_document"))),
            fn.getD "unknown_document", FileType.document, w.db.now,
            u.username⟩ :: joinedRows w.db uid := by
        unfold joinedRows get_user
        simp only [List.filter_cons, beq_self_eq_true, if_true,
          List.filterMap_cons]
        rw [show ({ w.db with
            storage := ⟨w.db.next_file_id, uid,
              save_path uid
                (fu ++ lowerStr (pySuffix (fn.getD "unknown_document"))),
              fn.getD "unknown_document", FileType.document, w.db.now⟩ ::
                w.db.storage,
            next_file_id := w.db.next_file_id + 1,
            now := w.db.now + 1 } : DB).users = w.db.users from rfl]
        have hgetl : w.db.users.find? (fun x => x.user_id == uid) = some u :=
          hget
        rw [hgetl]
        rfl
      show (List.insertionSort newestFirst _).head? = _
      rw [hjoin]
      apply head_insertionSort_cons_max
      intro b hb
      obtain ⟨s, hs, hts⟩ := joinedRows_storage w.db uid b hb
      rw [hts]
      exact hfresh s hs
    · intro r hr
      exact fun he => (hpath r hr) he.symm

/-- Witness for C7: after user 3 uploads "report.pdf" on top of an older
file, the immediate listing has the new file first with its name verbatim
and a fresh handle. -/
theorem claim7_list_files_witness :
    ∃ f, (get_user_files (dispatchMsg c7World ⟨true, false⟩ 3
        (MsgEvent.documentMsg (some "report.pdf") "u9")).1.db 3).head? =
          some f ∧
      f.original_filename = "report.pdf" ∧
      f.file_path = save_path 3 ("u9" ++ lowerStr (pySuffix "report.pdf")) ∧
      ∀ r ∈ c7World.db.storage, f.file_path ≠ r.file_path :=
  claim7_list_files.2.2 c7World ⟨true, false⟩ 3 (some "report.pdf") "u9"
    rfl rfl rfl rfl rfl (by decide) (by decide)

/-! ### Claim C10: the document-extension ledger invariant -/

/-- "ends (case-insensitively) in one of the allowed extensions" — the
reading of the claim's consequent. -/
def endsWithAllowed (s : String) : Bool :=
  allowedDocExtensions.any (fun e => e.toList.isSuffixOf (lowerStr s).toList)

/-- The claim's invariant over a storage table. -/
def docListOk (l : List FileRec) : Bool :=
  l.all fun r =>
    !(r.file_type == FileType.document) || endsWithAllowed r.original_filename

/-- The amended invariant: every document row's original filename has a
pathlib-style extension (suffix of its final path component) in the
allow-list. -/
def docListOkAmended (l : List FileRec) : Bool :=
  l.all fun r =>
    !(r.file_type == FileType.document) ||
      allowedDocExtensions.contains (lowerStr (pySuffix r.original_filename))

/-- Counterexample to C10 as stated: the filename "report.pdf/" passes the
extension check (pathlib takes the suffix of the final path component,
".pdf"), so the submission is accepted and a document row whose original
filename does NOT end in an allowed extension enters the ledger. -/
theorem claim10_counterexample :
    docListOk docSessionWorld.db.storage = true ∧
    (dispatchMsg docSessionWorld ⟨true, false⟩ 3
        (MsgEvent.documentMsg (some "report.pdf/") "u7")).1.db.storage =
      [⟨1, 3, save_path 3 "u7.pdf", "report.pdf/", FileType.document, 1⟩] ∧
    endsWithAllowed "report.pdf/" = false ∧
    docListOk (dispatchMsg docSessionWorld ⟨true, false⟩ 3
        (MsgEvent.documentMsg (some "report.pdf/") "u7")).1.db.storage =
      false :=
  ⟨rfl, rfl, rfl, rfl⟩

theorem docListOkAmended_cons (r : FileRec) (l : List FileRec)
    (hr : r.file_type = FileType.document →
      allowedDocExtensions.contains (lowerStr (pySuffix r.original_filename)) =
        true)
    (hl : docListOkAmended l = true) : docListOkAmended (r :: l) = true := by
  unfold docListOkAmended at hl ⊢
  rw [List.all_cons, hl, Bool.and_true]
  cases hft : r.file_type with
  | photo => rfl
  | document =>
    rw [hr hft]
    rfl

theorem docListOkAmended_filter (p : FileRec → Bool) (l : List FileRec)
    (hl : docListOkAmended l = true) :
    docListOkAmended (l.filter p) = true := by
  unfold docListOkAmended at hl ⊢
  rw [List.all_eq_true] at hl ⊢
  intro r hr
  exact hl r (List.mem_of_mem_filter hr)

/-- authorize_user_with_key never touches the storage table. -/
theorem storage_authorize (db : DB) (uid : Nat) (key : String) :
    (authorize_user_with_key db uid key).1.storage = db.storage := by
  unfold authorize_user_with_key
  cases hc : check_auth_key db key with
  | none => rfl
  | some k =>
    by_cases hu : k.is_used = true
    · simp [hu]
    · simp only [hu, Bool.false_eq_true, if_false]
      rfl

theorem storage_cmd_start (w : World) (uid : Nat) (un : Option String) :
    (cmd_start_h w uid un).1.db.storage = w.db.storage := by
  unfold cmd_start_h
  cases hg : get_user w.db uid with
  | none => rfl
  | some u =>
    simp only
    split <;> rfl

theorem storage_cmd_auth (w : World) (uid : Nat) (un args : Option String) :
    (cmd_auth_h w uid un args).1.db.storage = w.db.storage := by
  unfold cmd_auth_h
  cases hg : get_user w.db uid with
  | none => rfl
  | some u =>
    simp only
    split
    · rfl
    · cases args with
      | none => rfl
      | some key =>
        simp only
        split <;> exact storage_authorize w.db uid key

theorem world_auth_button (w : World) (uid : Nat) :
    (handle_auth_button_h w uid).1 = w := by
  unfold handle_auth_button_h
  cases hg : get_user w.db uid with
  | none => rfl
  | some u =>
    simp only
    split <;> rfl

theorem world_list_files (w : World) (uid : Nat) :
    (handle_list_files_body w uid).1 = w := by
  simp only [handle_list_files_body]
  split <;> rfl

theorem storage_file_type_choice (w : World) (t : String) :
    (handle_file_type_choice_body w t).1.db = w.db := by
  unfold handle_file_type_choice_body
  split
  · rfl
  · split <;> rfl

/-- delete_file_record either leaves storage alone (row absent) or
filters out the row with the given id. -/
theorem storage_delete_file_record (db : DB) (fid : Nat) :
    (delete_file_record db fid).1.storage = db.storage ∨
    (delete_file_record db fid).1.storage =
      db.storage.filter (fun s => s.id != fid) := by
  unfold delete_file_record
  cases hg : get_file_record db fid with
  | none => exact Or.inl rfl
  | some r => exact Or.inr rfl

theorem docOk_delete_file (w : World) (uid fid : Nat)
    (h : docListOkAmended w.db.storage = true) :
    docListOkAmended (handle_delete_file_body w uid fid).1.db.storage = true := by
  unfold handle_delete_file_body
  cases hp : (delete_file_record w.db fid).2 with
  | some p =>
    show docListOkAmended (delete_file_record w.db fid).1.storage = true
    cases storage_delete_file_record w.db fid with
    | inl h1 => rw [h1]; exact h
    | inr h2 => rw [h2]; exact docListOkAmended_filter _ _ h
  | none =>
    cases hg : get_file_record (delete_file_record w.db fid).1 fid with
    | none => exact h
    | some rec0 =>
      simp only [hg]
      split <;> exact h

theorem docOk_doc_upload (w : World) (o : Oracle) (uid : Nat)
    (fn : Option String) (fu : String)
    (h : docListOkAmended w.db.storage = true) :
    docListOkAmended
      (handle_document_upload_body w o uid fn fu).1.db.storage = true := by
  unfold handle_document_upload_body
  by_cases hext : allowedDocExtensions.contains
      (lowerStr (pySuffix (fn.getD "unknown_document"))) = true
  · simp only [hext, Bool.not_true, Bool.false_eq_true, if_false]
    unfold save_uploaded_file
    by_cases hsave : o.saveOk = true
    · simp only [hsave, if_true]
      unfold add_file_record
      by_cases huser : userExists w.db uid = true
      · simp only [huser, if_true]
        by_cases hfail : o.insertFail = true
        · simp only [hfail, if_true]
          exact h
        · simp only [Bool.not_eq_true] at hfail
          simp only [hfail, Bool.false_eq_true, if_false]
          exact docListOkAmended_cons _ _ (fun _ => hext) h
      · simp only [Bool.not_eq_true] at huser
        simp only [huser, Bool.false_eq_true, if_false]
        exact h
    · simp only [Bool.not_eq_true] at hsave
      simp only [hsave, Bool.false_eq_true, if_false]
      exact h
  · simp only [Bool.not_eq_true] at hext
    simp only [hext, Bool.not_false, if_true]
    exact h

theorem docOk_photo_upload (w : World) (o : Oracle) (uid : Nat)
    (fu : String) (h : docListOkAmended w.db.storage = true) :
    docListOkAmended
      (handle_photo_upload_body w o uid fu).1.db.storage = true := by
  unfold handle_photo_upload_body save_uploaded_file
  by_cases hsave : o.saveOk = true
  · simp only [hsave, if_true]
    unfold add_file_record
    by_cases huser : userExists w.db uid = true
    · simp only [huser, if_true]
      by_cases hfail : o.insertFail = true
      · simp only [hfail, if_true]
        exact h
      · simp only [Bool.not_eq_true] at hfail
        simp only [hfail, Bool.false_eq_true, if_false]
        refine docListOkAmended_cons _ _ (fun hd => ?_) h
        exact absurd hd (by simp)
    · simp only [Bool.not_eq_true] at huser
      simp only [huser, Bool.false_eq_true, if_false]
      exact h
  · simp only [Bool.not_eq_true] at hsave
    simp only [hsave, Bool.false_eq_true, if_false]
    exact h

theorem docOk_gatedMsg (w : World) (uid : Nat) (body : World × Out)
    (hb : docListOkAmended body.1.db.storage = true)
    (h : docListOkAmended w.db.storage = true) :
    docListOkAmended (gatedMsg w uid body).1.db.storage = true := by
  unfold gatedMsg
  split
  · exact hb
  · exact h

theorem docOk_gatedCb (w : World) (uid : Nat) (body : World × Out)
    (hb : docListOkAmended body.1.db.storage = true)
    (h : docListOkAmended w.db.storage = true) :
    docListOkAmended (gatedCb w uid body).1.db.storage = true := by
  unfold gatedCb
  split
  · exact hb
  · exact h

/-- Claim C10 as amended: a document submission with no filename (the
"unknown_document" default) or whose name yields an empty pathlib suffix
is always rejected with the allowed-set reply and no state change; and
every inbound event preserves the invariant that each document ledger
row's original filename carries an allowed pathlib-style extension:
the suffix of its final path component is, case-insensitively, one of
.pdf, .doc, .docx, .xlsx.  (The original claim's "filename ends in an
allowed extension" is false for names with trailing path separators,
which pathlib strips before taking the suffix.) -/
theorem claim10_amended :
    (∀ (w : World) (o : Oracle) (uid : Nat) (e : MsgEvent),
      docListOkAmended w.db.storage = true →
      docListOkAmended (dispatchMsg w o uid e).1.db.storage = true) ∧
    (∀ (w : World) (uid : Nat) (e : CbEvent),
      docListOkAmended w.db.storage = true →
      docListOkAmended (dispatchCb w uid e).1.db.storage = true) ∧
    (∀ (w : World) (o : Oracle) (uid : Nat) (fn : Option String)
        (fu : String),
      w.session = SessionState.awaitingDocument →
      isAuthorized w.db uid = true →
      lowerStr (pySuffix (fn.getD "unknown_document")) = "" →
      dispatchMsg w o uid (MsgEvent.documentMsg fn fu) =
        (w, ⟨[⟨wrongFormatMsg "", none⟩], [], []⟩)) := by
  refine ⟨?_, ?_, ?_⟩
  · intro w o uid e h
    cases e with
    | startCmd un =>
      show docListOkAmended (cmd_start_h w uid un).1.db.storage = true
      rw [storage_cmd_start]
      exact h
    | authCmd un args =>
      show docListOkAmended (cmd_auth_h w uid un args).1.db.storage = true
      rw [storage_cmd_auth]
      exact h
    | authButton =>
      show docListOkAmended (handle_auth_button_h w uid).1.db.storage = true
      rw [world_auth_button]
      exact h
    | logoutButton => exact docOk_gatedMsg w uid _ h h
    | processFileButton => exact docOk_gatedMsg w uid _ h h
    | listFilesButton =>
      refine docOk_gatedMsg w uid _ ?_ h
      rw [world_list_files]
      exact h
    | documentMsg fn fu =>
      simp only [dispatchMsg]
      cases hs : w.session with
      | idle => exact h
      | choosingFileType => exact docOk_gatedMsg w uid _ h h
      | awaitingPhoto => exact docOk_gatedMsg w uid _ h h
      | awaitingDocument =>
        exact docOk_gatedMsg w uid _ (docOk_doc_upload w o uid fn fu h) h
    | photoMsg fu =>
      simp only [dispatchMsg]
      cases hs : w.session with
      | idle => exact h
      | choosingFileType => exact docOk_gatedMsg w uid _ h h
      | awaitingDocument => exact docOk_gatedMsg w uid _ h h
      | awaitingPhoto =>
        exact docOk_gatedMsg w uid _ (docOk_photo_upload w o uid fu h) h
    | cancelCmd =>
      simp only [dispatchMsg]
      cases hs : w.session with
      | idle => exact h
      | choosingFileType => exact docOk_gatedMsg w uid _ h h
      | awaitingDocument => exact docOk_gatedMsg w uid _ h h
      | awaitingPhoto => exact docOk_gatedMsg w uid _ h h
    | otherText s =>
      simp only [dispatchMsg]
      cases hs : w.session with
      | idle => exact h
      | choosingFileType => exact docOk_gatedMsg w uid _ h h
      | awaitingDocument => exact docOk_gatedMsg w uid _ h h
      | awaitingPhoto => exact docOk_gatedMsg w uid _ h h
  · intro w uid e h
    cases e with
    | fileTypeCb t =>
      simp only [dispatchCb]
      cases hs : w.session with
      | idle => exact h
      | awaitingDocument => exact h
      | awaitingPhoto => exact h
      | choosingFileType =>
        refine docOk_gatedCb w uid _ ?_ h
        show docListOkAmended (handle_file_type_choice_body w t).1.db.storage = true
        rw [storage_file_type_choice]
        exact h
    | deleteFileCb fid =>
      exact docOk_gatedCb w uid _ (docOk_delete_file w uid fid h) h
  · intro w o uid fn fu hsess hauth hemp
    have hc : allowedDocExtensions.contains "" = false := rfl
    simp only [dispatchMsg, hsess, gatedMsg, hauth, if_true,
      handle_document_upload_body, hemp, hc, Bool.not_false, if_true]

/-- Witness for the amended C10: a ".txt" submission preserves the
invariant (it is rejected), and a submission with no filename at all is
rejected with the allowed-set reply and an unchanged world. -/
theorem claim10_amended_witness :
    docListOkAmended (dispatchMsg docSessionWorld ⟨true, false⟩ 3
        (MsgEvent.documentMsg (some "notes.txt") "u4")).1.db.storage = true ∧
    dispatchMsg docSessionWorld ⟨true, false⟩ 3 (MsgEvent.documentMsg none "u5") =
      (docSessionWorld, ⟨[⟨wrongFormatMsg "", none⟩], [], []⟩) :=
  ⟨claim10_amended.1 docSessionWorld ⟨true, false⟩ 3
      (MsgEvent.documentMsg (some "notes.txt") "u4") rfl,
   claim10_amended.2.2 docSessionWorld ⟨true, false⟩ 3 none "u5" rfl rfl rfl⟩

end TgBot
